import Mathlib

/-!
Shallow embedding of the multi-provider chat application: the data model
(`Message`, `Attachment`, `ChatState` from `types/chat.ts`), the provider
registry (`AIService`, in both app copies), the rule-based fallback
strategies of the GPT and Claude providers, and the orchestrator
operations of `App.tsx` (`handleSendMessage`, `handleRegenerate`,
`generateConversationTitle`).

Machine strings are Lean `String`s; the JavaScript truthiness test on an
optional string field (`undefined` and `""` are falsy) is `truthy`;
thrown exceptions are `Except.error`; the awaited network call inside
`generateResponse` is abstracted as an `Except String String` parameter.
-/

namespace Chat

/-- Role of a chat message (`type: 'user' | 'ai'` in `types/chat.ts`);
the spec calls the `ai` role "assistant". -/
inductive Role where
  | user
  | ai
deriving DecidableEq, Repr

/-- Attachment (`types/chat.ts`): `{id, name, type, size, url, content?}`;
`type` is the mime type, `content` the optional inline text. -/
structure Attachment where
  id : String
  name : String
  type : String
  size : Nat
  url : String
  content : Option String
deriving DecidableEq, Repr

/-- Chat message (`types/chat.ts` plus the `attachments` field that
`App.tsx` sets on user messages). -/
structure Message where
  id : String
  type : Role
  text : String
  timestamp : Nat
  model : Option String := none
  attachments : Option (List Attachment) := none
deriving DecidableEq, Repr

/-- `ChatState` (`types/chat.ts`): messages, loading flag, error string. -/
structure ChatState where
  messages : List Message
  isLoading : Bool
  error : Option String
deriving DecidableEq, Repr

/-- JavaScript truthiness of an optional string field: `undefined` and
the empty string are falsy, every other string is truthy. -/
def truthy : Option String → Bool
  | none => false
  | some s => !(s == "")

/-- Substring search on character lists: does the haystack contain the
needle as a contiguous run? -/
def containsSub (needle : List Char) : List Char → Bool
  | [] => needle.isPrefixOf ([] : List Char)
  | c :: rest => needle.isPrefixOf (c :: rest) || containsSub needle rest

/-- JavaScript `hay.includes(needle)`. -/
def includes (hay needle : String) : Bool :=
  containsSub needle.data hay.data

/-- JavaScript `s.toLowerCase()` as an ASCII case mapping over the
character list (the keywords involved are ASCII). -/
def toLowerCase (s : String) : String :=
  String.mk (s.data.map Char.toLower)

/-- JavaScript `s.startsWith(pre)`. -/
def startsWithStr (s pre : String) : Bool :=
  pre.data.isPrefixOf s.data

/-- JavaScript `s.substring(0, n)`. -/
def substringTo (s : String) (n : Nat) : String :=
  String.mk (s.data.take n)

/-- One of the four operator characters of the regex `[\+\-\*\/]`. -/
def isArithOp (c : Char) : Bool :=
  c == '+' || c == '-' || c == '*' || c == '/'

/-- A string matches the regex `\d+[\+\-\*\/]\d+` exactly when some three
consecutive characters are digit, operator, digit; this scans for such a
window. -/
def hasArithWindow : List Char → Bool
  | c1 :: c2 :: c3 :: rest =>
      (c1.isDigit && isArithOp c2 && c3.isDigit) || hasArithWindow (c2 :: c3 :: rest)
  | _ => false

/-- JavaScript `/\d+[\+\-\*\/]\d+/.test(message)` from
`ClaudeProvider.generateSmartFallback`. -/
def arithTest (message : String) : Bool :=
  hasArithWindow message.data

/-- Canned greeting response of `GPTProvider.generateFallbackResponse`. -/
def gptGreetingResponse : String :=
  "Hello! How can I help you today?"

/-- Canned "help" response of `GPTProvider.generateFallbackResponse`. -/
def gptHelpResponse : String :=
  "I'm here to help! You can ask me questions about various topics, request explanations, or just chat."

/-- Canned interrogative response of `GPTProvider.generateFallbackResponse`. -/
def gptQuestionResponse : String :=
  "That's an interesting question! While I may not have all the answers, I'd be happy to discuss this topic with you."

/-- Canned "thank" response of `GPTProvider.generateFallbackResponse`. -/
def gptThankResponse : String :=
  "You're welcome! Is there anything else I can help you with?"

/-- Generic canned response of `GPTProvider.generateFallbackResponse`. -/
def gptGenericResponse : String :=
  "I understand what you're saying. Could you tell me more about that or ask me something specific I can help with?"

/-- `GPTProvider.generateFallbackResponse` (client `aiService.ts`
lines 132-150): ordered keyword-substring checks over the lower-cased
message, first match wins. -/
def generateFallbackResponse (message : String) : String :=
  let lowerMessage := toLowerCase message
  if includes lowerMessage "hello" || includes lowerMessage "hi" then
    gptGreetingResponse
  else if includes lowerMessage "help" then
    gptHelpResponse
  else if includes lowerMessage "what" || includes lowerMessage "how" || includes lowerMessage "why" then
    gptQuestionResponse
  else if includes lowerMessage "thank" then
    gptThankResponse
  else
    gptGenericResponse

/-- Canned programming response of `ClaudeProvider.generateSmartFallback`. -/
def claudeProgrammingResponse : String :=
  "I can help with programming questions! Could you be more specific about what you'd like to build or debug?"

/-- Canned math response of `ClaudeProvider.generateSmartFallback`. -/
def claudeMathResponse : String :=
  "I can help with calculations and math problems. Please provide the specific equation or problem you'd like me to solve."

/-- Canned explanation response of `ClaudeProvider.generateSmartFallback`. -/
def claudeExplainResponse : String :=
  "I'd be happy to explain that concept! Could you give me a bit more context about what specific aspect you'd like me to focus on?"

/-- Canned creative-writing response of `ClaudeProvider.generateSmartFallback`. -/
def claudeCreativeResponse : String :=
  "I can help with creative writing! What kind of story, article, or content would you like me to help you create?"

/-- Generic canned response of `ClaudeProvider.generateSmartFallback`. -/
def claudeGenericResponse : String :=
  "I understand your message. While I may not have a complete response right now, I'm here to help with various topics including programming, explanations, creative writing, and problem-solving. Could you tell me more about what you need assistance with?"

/-- `ClaudeProvider.generateSmartFallback` (`part_002` lines 237-261):
ordered keyword-substring checks over the lower-cased message (the
arithmetic regex runs on the original message), first match wins. -/
def generateSmartFallback (message : String) : String :=
  let lowerMessage := toLowerCase message
  if includes lowerMessage "code" || includes lowerMessage "program" || includes lowerMessage "function" then
    claudeProgrammingResponse
  else if includes lowerMessage "calculate" || includes lowerMessage "math" || arithTest message then
    claudeMathResponse
  else if includes lowerMessage "explain" || includes lowerMessage "what is" || includes lowerMessage "how does" then
    claudeExplainResponse
  else if includes lowerMessage "write" || includes lowerMessage "story" || includes lowerMessage "creative" then
    claudeCreativeResponse
  else
    claudeGenericResponse

/-- The slice of the `AIProvider` interface that the registry claims
depend on: `getName()`. Transport behaviour is not modelled. -/
structure AIProvider where
  name : String
deriving DecidableEq, Repr

/-- The credentials read from `import.meta.env` by the client app copy. -/
structure Env where
  geminiApiKey : Option String
  claudeApiKey : Option String
deriving DecidableEq, Repr

/-- `GeminiProvider` constructor: throws when `VITE_GEMINI_API_KEY` is
not truthy. -/
def mkGeminiProvider (env : Env) : Except String AIProvider :=
  if truthy env.geminiApiKey then
    Except.ok { name := "Gemini 1.5 Flash" }
  else
    Except.error "VITE_GEMINI_API_KEY environment variable is not set"

/-- Client-copy `GPTProvider` constructor: requires no credential. -/
def mkGPTProvider : Except String AIProvider :=
  Except.ok { name := "DialoGPT Large (Free)" }

/-- Client-copy `ClaudeProvider` constructor: throws when
`VITE_CLAUDE_API_KEY` is not truthy. -/
def mkClaudeProvider (env : Env) : Except String AIProvider :=
  if truthy env.claudeApiKey then
    Except.ok { name := "Claude 3" }
  else
    Except.error "VITE_CLAUDE_API_KEY environment variable is not set"

/-- The registry state: an insertion-ordered mapping from provider key to
provider, as a JavaScript `Map` preserves insertion order. -/
structure AIService where
  providers : List (String × AIProvider)
deriving DecidableEq, Repr

/-- Client-copy `AIService` constructor (client `aiService.ts`
lines 223-241): each provider construction is wrapped in try/catch and a
failure merely omits that key from the mapping; construction of the
service itself never fails. -/
def mkAIService (env : Env) : AIService :=
  { providers :=
      (match mkGeminiProvider env with
        | Except.ok p => [("gemini", p)]
        | Except.error _ => [])
      ++ (match mkGPTProvider with
        | Except.ok p => [("gpt", p)]
        | Except.error _ => [])
      ++ (match mkClaudeProvider env with
        | Except.ok p => [("claude", p)]
        | Except.error _ => []) }

/-- Client-copy `AIService.getProvider` (lines 243-249). -/
def getProvider (s : AIService) (model : String) : Except String AIProvider :=
  match s.providers.lookup model with
  | some p => Except.ok p
  | none => Except.error ("AI model \"" ++ model ++ "\" not available. Please check your API keys.")

/-- `AIService.getAvailableModels` (client lines 251-256):
`Array.from(map.entries()).map(([key, p]) => ({key, name: p.getName()}))`. -/
def getAvailableModels (s : AIService) : List (String × String) :=
  s.providers.map (fun kp => (kp.1, kp.2.name))

/-- src-copy `AIService` constructor (`src/src/services/aiService.ts`
lines 110-114): NO try/catch, so a provider construction failure
propagates out of the registry constructor. Its GPT and Claude providers
are credential-free mocks. -/
def mkAIServiceSrc (env : Env) : Except String AIService :=
  match mkGeminiProvider env with
  | Except.error e => Except.error e
  | Except.ok g =>
      Except.ok
        { providers :=
            [("gemini", g), ("gpt", { name := "GPT-4" }), ("claude", { name := "Claude 3" })] }

/-- The attachment block built inside `handleSendMessage` (App.tsx
118-123): a textual attachment whose `content` is truthy is inlined with
its literal text; every other attachment yields a reference line naming
the file and its mime type. -/
def attachmentBlock (att : Attachment) : String :=
  if truthy att.content && startsWithStr att.type "text/" then
    "File \"" ++ att.name ++ "\" content:\n" ++ att.content.getD ""
  else
    "File attached: " ++ att.name ++ " (" ++ att.type ++ ")"

/-- JavaScript `Array.prototype.join` with separator `"\n\n"`. -/
def joinBlocks : List String → String
  | [] => ""
  | [b] => b
  | b :: rest => b ++ "\n\n" ++ joinBlocks rest

/-- The effective ("contextual") prompt built by `handleSendMessage`
(App.tsx 116-126): the original text, then a constant header line, then
the attachment blocks separated by blank lines. -/
def contextualMessage (messageText : String) (attachments : Option (List Attachment)) : String :=
  match attachments with
  | some atts =>
      if atts.length > 0 then
        messageText ++ "\n\nAttached files:\n" ++ joinBlocks (atts.map attachmentBlock)
      else
        messageText
  | none => messageText

/-- `handleSendMessage` (App.tsx 96-150) as a state transition. `uid` and
`aid` stand for the fresh uuids, `now` for the timestamps, and
`genResult` abstracts the awaited `provider.generateResponse` network
call. The user message is appended (with `isLoading` set and `error`
cleared) before the provider is resolved; the catch branch only clears
`isLoading` and sets `error`. -/
def handleSendMessage (st : ChatState) (uid aid : String) (now : Nat)
    (messageText : String) (attachments : Option (List Attachment))
    (svc : AIService) (modelKey : String)
    (genResult : Except String String) : ChatState :=
  let userMessage : Message :=
    { id := uid, type := Role.user, text := messageText, timestamp := now,
      model := none, attachments := attachments }
  let st1 : ChatState :=
    { st with messages := st.messages ++ [userMessage], isLoading := true, error := none }
  match getProvider svc modelKey with
  | Except.error e => { st1 with isLoading := false, error := some e }
  | Except.ok provider =>
      match genResult with
      | Except.ok responseText =>
          { st1 with
            messages := st1.messages ++
              [{ id := aid, type := Role.ai, text := responseText, timestamp := now,
                 model := some provider.name, attachments := none }],
            isLoading := false }
      | Except.error e => { st1 with isLoading := false, error := some e }

/-- `handleRegenerate` (App.tsx 152-169) restricted to the message
sequence: the updated sequence, and, when a user message exists, the
`(text, attachments)` arguments of the `handleSendMessage` re-invocation
(the source passes only the text, so the attachments are `none`). When a
user message exists the source drops the LAST element of the sequence
unconditionally (`messages.slice(0, -1)`), whatever its role. -/
def handleRegenerate (messages : List Message) :
    List Message × Option (String × Option (List Attachment)) :=
  match messages.reverse.find? (fun m => m.type == Role.user) with
  | some lastUserMessage => (messages.dropLast, some (lastUserMessage.text, none))
  | none => (messages, none)

/-- `generateConversationTitle` (App.tsx 269-277). -/
def generateConversationTitle (messages : List Message) : String :=
  match messages.find? (fun m => m.type == Role.user) with
  | some firstUserMessage =>
      if firstUserMessage.text.length > 30 then
        (substringTo firstUserMessage.text 30) ++ "..."
      else
        firstUserMessage.text
  | none => "New Conversation"

/-- Modelled from the spec: claim C3's SINGLE combined ordered check
sequence (greeting words, "help", interrogative words, "thank",
programming keywords, arithmetic-like patterns, "explain"/"what is",
"write"/"story"), first match wins, one generic response otherwise. No
function in the source implements this combined sequence — the source has
two separate fallbacks — so this definition exists only to state the
claim as written. -/
def claimedSingleFallback (message : String) : String :=
  let lowerMessage := toLowerCase message
  if includes lowerMessage "hello" || includes lowerMessage "hi" then
    gptGreetingResponse
  else if includes lowerMessage "help" then
    gptHelpResponse
  else if includes lowerMessage "what" || includes lowerMessage "how" || includes lowerMessage "why" then
    gptQuestionResponse
  else if includes lowerMessage "thank" then
    gptThankResponse
  else if includes lowerMessage "code" || includes lowerMessage "program" || includes lowerMessage "function" then
    claudeProgrammingResponse
  else if includes lowerMessage "calculate" || includes lowerMessage "math" || arithTest message then
    claudeMathResponse
  else if includes lowerMessage "explain" || includes lowerMessage "what is" then
    claudeExplainResponse
  else if includes lowerMessage "write" || includes lowerMessage "story" then
    claudeCreativeResponse
  else
    gptGenericResponse

/-- Modelled from the spec: claim C5's reading of the attachment block,
under which a textual attachment whose `content` is PRESENT — even as the
empty string — is inlined. The source instead tests JavaScript
truthiness (`att.content &&`), under which empty content is falsy. -/
def claimedAttachmentBlock (att : Attachment) : String :=
  match att.content with
  | some c =>
      if startsWithStr att.type "text/" then
        "File \"" ++ att.name ++ "\" content:\n" ++ c
      else
        "File attached: " ++ att.name ++ " (" ++ att.type ++ ")"
  | none => "File attached: " ++ att.name ++ " (" ++ att.type ++ ")"

/-- First-match-wins evaluation of an ordered `(predicate, response)`
rule list, with a generic response when no rule matches. -/
def firstMatch (rules : List ((String → Bool) × String)) (generic message : String) : String :=
  match rules.find? (fun rule => rule.1 message) with
  | some rule => rule.2
  | none => generic

/-- The ordered rule list of `GPTProvider.generateFallbackResponse`, one
`(predicate, response)` pair per source check, in source order. -/
def gptRules : List ((String → Bool) × String) :=
  [ (fun m => includes (toLowerCase m) "hello" || includes (toLowerCase m) "hi", gptGreetingResponse),
    (fun m => includes (toLowerCase m) "help", gptHelpResponse),
    (fun m => includes (toLowerCase m) "what" || includes (toLowerCase m) "how" || includes (toLowerCase m) "why",
      gptQuestionResponse),
    (fun m => includes (toLowerCase m) "thank", gptThankResponse) ]

/-- The ordered rule list of `ClaudeProvider.generateSmartFallback`, one
`(predicate, response)` pair per source check, in source order. -/
def claudeRules : List ((String → Bool) × String) :=
  [ (fun m => includes (toLowerCase m) "code" || includes (toLowerCase m) "program" || includes (toLowerCase m) "function",
      claudeProgrammingResponse),
    (fun m => includes (toLowerCase m) "calculate" || includes (toLowerCase m) "math" || arithTest m,
      claudeMathResponse),
    (fun m => includes (toLowerCase m) "explain" || includes (toLowerCase m) "what is" || includes (toLowerCase m) "how does",
      claudeExplainResponse),
    (fun m => includes (toLowerCase m) "write" || includes (toLowerCase m) "story" || includes (toLowerCase m) "creative",
      claudeCreativeResponse) ]

/-- A textual attachment whose `content` is present but empty: the input
that separates the source's truthiness test from the spec's "present". -/
def emptyContentAttachment : Attachment :=
  { id := "1", name := "a.txt", type := "text/plain", size := 0, url := "", content := some "" }

/-- The spec's example textual attachment with nonempty content. -/
def textAttachmentX : Attachment :=
  { id := "1", name := "a.txt", type := "text/plain", size := 1, url := "", content := some "X" }

/-- The providers the client-copy registry holds, as a function of which
credentials are truthy: gemini, then gpt, then claude, in registration
order, each present exactly when its constructor succeeds. -/
theorem mkAIService_providers (env : Env) :
    (mkAIService env).providers
      = (cond (truthy env.geminiApiKey) [("gemini", { name := "Gemini 1.5 Flash" })] [])
        ++ [("gpt", { name := "DialoGPT Large (Free)" })]
        ++ (cond (truthy env.claudeApiKey) [("claude", { name := "Claude 3" })] []) := by
  unfold mkAIService mkGeminiProvider mkGPTProvider mkClaudeProvider
  cases hg : truthy env.geminiApiKey <;> cases hc : truthy env.claudeApiKey <;> simp

/-- `joinBlocks` on a list of at least two blocks. -/
theorem joinBlocks_cons_cons (x y : String) (rest : List String) :
    joinBlocks (x :: y :: rest) = x ++ "\n\n" ++ joinBlocks (y :: rest) := rfl

/-- Every block of the list appears contiguously in their join. -/
theorem mem_infix_joinBlocks (b : String) :
    ∀ bs : List String, b ∈ bs → b.data <:+: (joinBlocks bs).data
  | [], h => absurd h (List.not_mem_nil b)
  | [x], h => by
      rcases List.mem_singleton.mp h with rfl
      exact List.infix_refl _
  | x :: y :: rest, h => by
      rcases List.mem_cons.mp h with rfl | h2
      · refine ⟨[], ("\n\n" ++ joinBlocks (y :: rest)).data, ?_⟩
        simp [joinBlocks_cons_cons]
      · obtain ⟨s, t, hst⟩ := mem_infix_joinBlocks b (y :: rest) h2
        refine ⟨(x ++ "\n\n").data ++ s, t, ?_⟩
        simp [joinBlocks_cons_cons, ← hst]

/-- C1 counterexample: on the sequence `[user "hi"]`, which does not end
with an assistant-role message, the claim says regenerate removes
nothing; the code (`messages.slice(0, -1)`) drops the trailing USER
message and still re-invokes send with "hi". -/
theorem handleRegenerate_drops_trailing_user_message :
    handleRegenerate [{ id := "1", type := Role.user, text := "hi", timestamp := 0 }]
      = ([], some ("hi", none))
    ∧ ([] : List Message)
        ≠ [{ id := "1", type := Role.user, text := "hi", timestamp := 0 }] := by
  decide

/-- C1 (amended): for every message sequence containing a user-role
message, regenerate finds the most recent user-role message (scanning
from the end), unconditionally removes the LAST message of the sequence —
whatever its role — and re-invokes send with that user message's original
text and no attachments. -/
theorem handleRegenerate_spec (messages : List Message) (u : Message)
    (h : (messages.filter (fun m => m.type == Role.user)).getLast? = some u) :
    handleRegenerate messages = (messages.dropLast, some (u.text, none)) := by
  rw [List.filter_getLast?] at h
  unfold handleRegenerate
  rw [h]

/-- C1 witness: regenerate on `[user "hi", ai "hello"]` drops the
assistant message and re-sends "hi" with no attachments. -/
theorem handleRegenerate_spec_witness :
    handleRegenerate
        [{ id := "1", type := Role.user, text := "hi", timestamp := 0 },
         { id := "2", type := Role.ai, text := "hello", timestamp := 1 }]
      = ([{ id := "1", type := Role.user, text := "hi", timestamp := 0 }],
         some ("hi", none)) :=
  handleRegenerate_spec _
    { id := "1", type := Role.user, text := "hi", timestamp := 0 } (by decide)

/-- C2 counterexample: in the src app copy the provider constructions are
not wrapped in try/catch, so with the Gemini credential absent the
Registry construction itself fails instead of succeeding with that key
omitted. -/
theorem mkAIServiceSrc_construction_fails :
    mkAIServiceSrc { geminiApiKey := none, claudeApiKey := none }
      = Except.error "VITE_GEMINI_API_KEY environment variable is not set" := by
  rfl

/-- C2 (amended): in the client app copy, for a provider key whose
required credential is absent (not truthy), Registry construction still
succeeds — `mkAIService` is a total function — with that key omitted from
the mapping, `getAvailableModels` excludes the key, and `getProvider`
fails with the "not available" error naming the requested key. In the
src app copy the construction failure is not caught (counterexample). -/
theorem registry_missing_credential_spec (env : Env) (key : String)
    (h : (key = "gemini" ∧ truthy env.geminiApiKey = false)
         ∨ (key = "claude" ∧ truthy env.claudeApiKey = false)) :
    (mkAIService env).providers.lookup key = none
    ∧ (getAvailableModels (mkAIService env)).all (fun kn => !(kn.1 == key)) = true
    ∧ getProvider (mkAIService env) key
        = Except.error ("AI model \"" ++ key ++ "\" not available. Please check your API keys.") := by
  have hprov := mkAIService_providers env
  rcases h with ⟨rfl, hk⟩ | ⟨rfl, hk⟩
  · rw [hk] at hprov
    cases hc : truthy env.claudeApiKey <;> rw [hc] at hprov <;>
      simp [getProvider, getAvailableModels, hprov, List.lookup]
  · rw [hk] at hprov
    cases hg : truthy env.geminiApiKey <;> rw [hg] at hprov <;>
      simp [getProvider, getAvailableModels, hprov, List.lookup]

/-- C2 witness: with no credentials at all, the client registry still
constructs, the gemini key is absent from the mapping and from
`getAvailableModels`, and `getProvider "gemini"` fails naming "gemini". -/
theorem registry_missing_credential_witness :
    (mkAIService { geminiApiKey := none, claudeApiKey := none }).providers.lookup "gemini" = none
    ∧ (getAvailableModels (mkAIService { geminiApiKey := none, claudeApiKey := none })).all
        (fun kn => !(kn.1 == "gemini")) = true
    ∧ getProvider (mkAIService { geminiApiKey := none, claudeApiKey := none }) "gemini"
        = Except.error ("AI model \"" ++ "gemini" ++ "\" not available. Please check your API keys.") :=
  registry_missing_credential_spec { geminiApiKey := none, claudeApiKey := none } "gemini"
    (Or.inl ⟨rfl, by decide⟩)

/-- C3 counterexample: no single combined check sequence exists. The GPT
fallback has no write/story check, so on "write a story" it returns its
generic response while the claimed combined sequence returns the creative
response; the Claude fallback has no greeting check, so on "hello" it
returns its generic response while the claimed sequence returns the
greeting. -/
theorem no_single_fallback_sequence :
    generateFallbackResponse "write a story" ≠ claimedSingleFallback "write a story"
    ∧ generateSmartFallback "hello" ≠ claimedSingleFallback "hello" := by
  decide

/-- C3 (amended): each provider's rule-based terminal fallback evaluates
its OWN fixed ordered keyword-check sequence with first match wins — GPT:
greeting words, "help", interrogative words, "thank", then generic;
Claude: programming keywords, arithmetic-like patterns,
"explain"/"what is"/"how does", "write"/"story"/"creative", then generic.
Both equal first-match evaluation of their explicit ordered rule lists. -/
theorem fallback_rule_order_spec (message : String) :
    generateFallbackResponse message = firstMatch gptRules gptGenericResponse message
    ∧ generateSmartFallback message = firstMatch claudeRules claudeGenericResponse message := by
  constructor
  · simp only [generateFallbackResponse, firstMatch, gptRules, List.find?]
    cases h1 : (includes (toLowerCase message) "hello" || includes (toLowerCase message) "hi") <;>
    cases h2 : includes (toLowerCase message) "help" <;>
    cases h3 : (includes (toLowerCase message) "what" || includes (toLowerCase message) "how" ||
        includes (toLowerCase message) "why") <;>
    cases h4 : includes (toLowerCase message) "thank" <;>
    simp [h1, h2, h3, h4]
  · simp only [generateSmartFallback, firstMatch, claudeRules, List.find?]
    cases h1 : (includes (toLowerCase message) "code" || includes (toLowerCase message) "program" ||
        includes (toLowerCase message) "function") <;>
    cases h2 : (includes (toLowerCase message) "calculate" || includes (toLowerCase message) "math" ||
        arithTest message) <;>
    cases h3 : (includes (toLowerCase message) "explain" || includes (toLowerCase message) "what is" ||
        includes (toLowerCase message) "how does") <;>
    cases h4 : (includes (toLowerCase message) "write" || includes (toLowerCase message) "story" ||
        includes (toLowerCase message) "creative") <;>
    simp [h1, h2, h3, h4]

/-- C4: both rule-based terminal fallbacks are total pure functions: on
every input each returns one of its five fixed canned responses, and the
result is never the empty string. Determinism — equal inputs give equal
outputs — holds definitionally, the embedding being a pure function of
the message, exactly as the source functions are synchronous and
exception-free. -/
theorem fallback_total_and_canned (message : String) :
    generateFallbackResponse message ∈
      [gptGreetingResponse, gptHelpResponse, gptQuestionResponse,
       gptThankResponse, gptGenericResponse]
    ∧ generateFallbackResponse message ≠ ""
    ∧ generateSmartFallback message ∈
      [claudeProgrammingResponse, claudeMathResponse, claudeExplainResponse,
       claudeCreativeResponse, claudeGenericResponse]
    ∧ generateSmartFallback message ≠ "" := by
  refine ⟨?_, ?_, ?_, ?_⟩
  · simp only [generateFallbackResponse]
    repeat' split
    all_goals simp
  · simp only [generateFallbackResponse]
    repeat' split
    all_goals decide
  · simp only [generateSmartFallback]
    repeat' split
    all_goals simp
  · simp only [generateSmartFallback]
    repeat' split
    all_goals decide

/-- C5 counterexample: the attachment `{name := "a.txt", type :=
"text/plain", content := some ""}` is textual and its content is present,
yet the code (JavaScript truthiness: `att.content && ...`) emits the
reference line instead of inlining the (empty) content, so the effective
prompt differs from the one the claim describes. -/
theorem empty_content_not_inlined :
    contextualMessage "Summarize" (some [emptyContentAttachment])
      = "Summarize\n\nAttached files:\nFile attached: a.txt (text/plain)"
    ∧ contextualMessage "Summarize" (some [emptyContentAttachment])
      ≠ "Summarize" ++ "\n\nAttached files:\n" ++ claimedAttachmentBlock emptyContentAttachment := by
  decide

/-- C5 (amended): for a nonempty attachment list, the effective prompt
starts with the original text followed by the constant header line; each
textual attachment with NONEMPTY present content contributes its inline
block — and hence its literal content — contiguously to the result, and
every other attachment contributes the `name (mimeType)` reference line.
(Amendment: JavaScript truthiness sends an attachment whose present
content is the empty string down the reference-line branch.) -/
theorem contextualMessage_spec (messageText : String) (atts : List Attachment)
    (h : atts ≠ []) :
    (contextualMessage messageText (some atts)
        = messageText ++ "\n\nAttached files:\n" ++ joinBlocks (atts.map attachmentBlock))
    ∧ (∀ att ∈ atts, ∀ c : String, att.content = some c → c ≠ ""
        → startsWithStr att.type "text/" = true
        → ("File \"" ++ att.name ++ "\" content:\n" ++ c).data
            <:+: (contextualMessage messageText (some atts)).data
          ∧ c.data <:+: (contextualMessage messageText (some atts)).data)
    ∧ (∀ att ∈ atts, (truthy att.content && startsWithStr att.type "text/") = false
        → ("File attached: " ++ att.name ++ " (" ++ att.type ++ ")").data
            <:+: (contextualMessage messageText (some atts)).data) := by
  have hlen : 0 < atts.length := List.length_pos.mpr h
  have hform : contextualMessage messageText (some atts)
      = messageText ++ "\n\nAttached files:\n" ++ joinBlocks (atts.map attachmentBlock) := by
    simp [contextualMessage, hlen]
  have hsuffix : ∀ att ∈ atts,
      (attachmentBlock att).data <:+: (contextualMessage messageText (some atts)).data := by
    intro att hmem
    have hjoin := mem_infix_joinBlocks (attachmentBlock att) (atts.map attachmentBlock)
      (List.mem_map_of_mem _ hmem)
    rw [hform]
    exact hjoin.trans ⟨(messageText ++ "\n\nAttached files:\n").data, [], by simp⟩
  refine ⟨hform, ?_, ?_⟩
  · intro att hmem c hc hne htype
    have htruthy : truthy (some c) = true := by
      simp [truthy, hne]
    have hblock : attachmentBlock att = "File \"" ++ att.name ++ "\" content:\n" ++ c := by
      simp [attachmentBlock, htruthy, htype, hc]
    have hb := hsuffix att hmem
    rw [hblock] at hb
    refine ⟨hb, ?_⟩
    exact (List.IsInfix.trans ⟨("File \"" ++ att.name ++ "\" content:\n").data, [], by simp⟩ hb)
  · intro att hmem hcond
    have hblock : attachmentBlock att
        = "File attached: " ++ att.name ++ " (" ++ att.type ++ ")" := by
      simp [attachmentBlock, hcond]
    have hb := hsuffix att hmem
    rw [hblock] at hb
    exact hb

/-- C5 witness: the spec's example — prompt "Summarize" with the textual
attachment `a.txt` of content "X" — yields an effective prompt starting
with "Summarize", the header, and carrying the literal content "X". -/
theorem contextualMessage_spec_witness :
    contextualMessage "Summarize" (some [textAttachmentX])
      = "Summarize" ++ "\n\nAttached files:\n"
        ++ joinBlocks ([textAttachmentX].map attachmentBlock)
    ∧ ("X" : String).data <:+: (contextualMessage "Summarize" (some [textAttachmentX])).data := by
  have hspec := contextualMessage_spec "Summarize" [textAttachmentX] (List.cons_ne_nil _ _)
  refine ⟨hspec.1, ?_⟩
  exact (hspec.2.1 textAttachmentX (List.mem_singleton.mpr rfl) "X" rfl (by decide) (by decide)).2

/-- C6: `getAvailableModels` returns exactly the keys present in the
registry mapping, each paired with that provider's display name, in
registration (insertion) order — gemini, then gpt, then claude, filtered
by constructibility — never sorted or reordered. -/
theorem getAvailableModels_spec (env : Env) :
    getAvailableModels (mkAIService env)
      = (cond (truthy env.geminiApiKey) [("gemini", "Gemini 1.5 Flash")] [])
        ++ [("gpt", "DialoGPT Large (Free)")]
        ++ (cond (truthy env.claudeApiKey) [("claude", "Claude 3")] [])
    ∧ (getAvailableModels (mkAIService env)).map Prod.fst
        = (mkAIService env).providers.map Prod.fst := by
  have hprov := mkAIService_providers env
  cases hg : truthy env.geminiApiKey <;> rw [hg] at hprov <;>
    cases hc : truthy env.claudeApiKey <;> rw [hc] at hprov <;>
      simp [getAvailableModels, hprov]

/-- C7: the conversation title is derived from the FIRST user-role
message of the sequence: its text verbatim when at most 30 characters,
otherwise its first 30 characters followed by an ellipsis. (The spec's
"derived once / otherwise immutable" concerns UI state handling outside
this embedding; the derivation itself depends only on that first user
message.) -/
theorem generateConversationTitle_spec (messages : List Message) (u : Message)
    (h : (messages.filter (fun m => m.type == Role.user)).head? = some u) :
    generateConversationTitle messages
      = if u.text.length > 30 then (substringTo u.text 30) ++ "..." else u.text := by
  rw [List.filter_head?] at h
  unfold generateConversationTitle
  rw [h]

/-- C7 witness: a 40-character first user message is truncated to its
first 30 characters plus "...". -/
theorem generateConversationTitle_witness :
    generateConversationTitle
        [{ id := "1", type := Role.user,
           text := "0123456789012345678901234567890123456789", timestamp := 0 }]
      = "012345678901234567890123456789..." := by
  rw [generateConversationTitle_spec
      [{ id := "1", type := Role.user,
         text := "0123456789012345678901234567890123456789", timestamp := 0 }]
      { id := "1", type := Role.user,
        text := "0123456789012345678901234567890123456789", timestamp := 0 }
      (by decide)]
  decide

/-- C8: a message sequence with no user-role message makes regenerate a
no-op: the sequence is returned unchanged and no send re-invocation is
produced. -/
theorem handleRegenerate_noop_spec (messages : List Message)
    (h : ∀ m ∈ messages, m.type ≠ Role.user) :
    handleRegenerate messages = (messages, none) := by
  have hfind : messages.reverse.find? (fun m => m.type == Role.user) = none := by
    rw [List.find?_eq_none]
    intro m hm
    simpa using h m (List.mem_reverse.mp hm)
  unfold handleRegenerate
  rw [hfind]

/-- C8 witness: regenerate on the assistant-only welcome sequence leaves
it unchanged and sends nothing. -/
theorem handleRegenerate_noop_witness :
    handleRegenerate [{ id := "w", type := Role.ai, text := "Hello!", timestamp := 0 }]
      = ([{ id := "w", type := Role.ai, text := "Hello!", timestamp := 0 }], none) :=
  handleRegenerate_noop_spec _ (by decide)

/-- C9: `handleSendMessage` appends the user message (with the loading
flag set and the error cleared) before the provider is resolved, so on
either failure — provider resolution or the generate call — the user
message remains appended and, relative to the post-append state, only the
loading flag and the error string change. -/
theorem handleSendMessage_failure_spec (st : ChatState) (uid aid : String) (now : Nat)
    (messageText : String) (attachments : Option (List Attachment))
    (svc : AIService) (modelKey : String) (genResult : Except String String) (e : String) :
    (getProvider svc modelKey = Except.error e →
      handleSendMessage st uid aid now messageText attachments svc modelKey genResult
        = { messages := st.messages ++
              [{ id := uid, type := Role.user, text := messageText, timestamp := now,
                 model := none, attachments := attachments }],
            isLoading := false, error := some e })
    ∧ (genResult = Except.error e → ∀ p, getProvider svc modelKey = Except.ok p →
      handleSendMessage st uid aid now messageText attachments svc modelKey genResult
        = { messages := st.messages ++
              [{ id := uid, type := Role.user, text := messageText, timestamp := now,
                 model := none, attachments := attachments }],
            isLoading := false, error := some e }) := by
  constructor
  · intro hp
    simp only [handleSendMessage, hp]
  · intro hg p hp
    simp only [handleSendMessage, hp, hg]

/-- C9 witness: with no credentials, sending "hi" to the "gemini" key
fails at provider resolution, yet the user message stays appended and
only the loading flag and error change; the same holds for a generate
failure on the always-constructible "gpt" key. -/
theorem handleSendMessage_failure_witness :
    handleSendMessage { messages := [], isLoading := false, error := none } "u1" "a1" 0 "hi"
        none (mkAIService { geminiApiKey := none, claudeApiKey := none }) "gemini"
        (Except.ok "ignored")
      = { messages := [{ id := "u1", type := Role.user, text := "hi", timestamp := 0,
                         model := none, attachments := none }],
          isLoading := false,
          error := some "AI model \"gemini\" not available. Please check your API keys." }
    ∧ handleSendMessage { messages := [], isLoading := false, error := none } "u1" "a1" 0 "hi"
        none (mkAIService { geminiApiKey := none, claudeApiKey := none }) "gpt"
        (Except.error "Network error. Please check your internet connection.")
      = { messages := [{ id := "u1", type := Role.user, text := "hi", timestamp := 0,
                         model := none, attachments := none }],
          isLoading := false,
          error := some "Network error. Please check your internet connection." } :=
  ⟨(handleSendMessage_failure_spec _ _ _ _ _ _ _ _ _ _).1 rfl,
   (handleSendMessage_failure_spec _ _ _ _ _ _ _ _ _ _).2 rfl
     { name := "DialoGPT Large (Free)" } rfl⟩

/-- C10: the greeting check of the GPT fallback is a raw substring test
on the lower-cased prompt: any message whose lower-cased text contains
"hi" anywhere receives the canned greeting response, ahead of every later
keyword check. -/
theorem greeting_substring_spec (message : String)
    (h : includes (toLowerCase message) "hi" = true) :
    generateFallbackResponse message = gptGreetingResponse := by
  simp only [generateFallbackResponse, h, Bool.or_true, if_true]

/-- C10 witness: "this" contains "hi" inside the word itself, so the
fallback returns the greeting response. -/
theorem greeting_substring_witness :
    generateFallbackResponse "this" = gptGreetingResponse :=
  greeting_substring_spec "this" (by decide)

end Chat
